import Mathlib

/-!
Verification development for the keyspace-partition / amplitude-amplification
search utility (`src/main.py`).  The Python source is shallowly embedded:

* Python strings are Lean `String`s and Python's lexicographic string
  comparison (by code point) is `pyStrLe`;
* `int(s, 16)` is `pyIntHex` (the subset actually exercised: an optional
  `0x`/`0X` prefix followed by hex digits; no sign, whitespace or
  underscores), returning `none` where CPython raises `ValueError`;
* `format(n, 'b')` is `pyFormatB` (big-endian binary digits, no leading
  zeros, `"0"` for zero), written with fuel so the kernel can evaluate it;
* the `Profile` class, its `assign_keyspace` method, the
  `run_grover_search` method and the two CLI commands become plain
  functions over an explicit `Profile` record; the qiskit library calls
  (`GroverOperator`, `Grover.amplify`) are an abstract `QiskitBackend`
  parameter, while the circuit the source itself builds (`x`/`h`/`mcx`
  gates, `compose`) is embedded concretely.

The amplification engine itself lives in the external qiskit library, not
in the repository; where a claim is about the engine's behaviour it is
settled against definitions modelled from the spec (each marked
`Modelled from the spec:`).
-/

/-- Python lexicographic `<` on strings, compared by code point, on the
underlying character lists (mirrors CPython string comparison used by
`lower_bound <= bitstring <= upper_bound` in `is_good_state`). -/
def pyStrLtAux : List Char → List Char → Bool
  | [], [] => false
  | [], _ :: _ => true
  | _ :: _, [] => false
  | a :: as, b :: bs =>
    if a.toNat < b.toNat then true
    else if b.toNat < a.toNat then false
    else pyStrLtAux as bs

/-- Python `s <= t` on strings: `not (t < s)` in the total lexicographic
order by code point. -/
def pyStrLe (s t : String) : Bool := !(pyStrLtAux t.data s.data)

/-- Value of one hexadecimal digit character, `none` if not a hex digit. -/
def hexDigitVal (c : Char) : Option Nat :=
  if '0' ≤ c ∧ c ≤ '9' then some (c.toNat - '0'.toNat)
  else if 'a' ≤ c ∧ c ≤ 'f' then some (c.toNat - 'a'.toNat + 10)
  else if 'A' ≤ c ∧ c ≤ 'F' then some (c.toNat - 'A'.toNat + 10)
  else none

/-- Accumulate the value of a run of hex digits; `none` on a non-digit. -/
def hexDigitsValAux : Nat → List Char → Option Nat
  | acc, [] => some acc
  | acc, c :: cs =>
    match hexDigitVal c with
    | some d => hexDigitsValAux (acc * 16 + d) cs
    | none => none

/-- Value of a nonempty run of hex digits; `none` if empty or invalid. -/
def hexDigitsVal : List Char → Option Nat
  | [] => none
  | cs => hexDigitsValAux 0 cs

/-- Python `int(s, 16)` on the inputs this program uses: an optional
`0x`/`0X` prefix followed by at least one hex digit.  `none` models the
`ValueError` CPython raises on malformed input. -/
def pyIntHex (s : String) : Option Nat :=
  match s.data with
  | '0' :: 'x' :: rest => hexDigitsVal rest
  | '0' :: 'X' :: rest => hexDigitsVal rest
  | cs => hexDigitsVal cs

/-- Big-endian binary digits of `n` (empty for `0`), with explicit fuel so
that the definition is structural and kernel-evaluable.  Fuel `n` is always
enough since the argument at least halves each step. -/
def pyFormatBAux : Nat → Nat → List Char
  | 0, _ => []
  | _ + 1, 0 => []
  | fuel + 1, n + 1 =>
    pyFormatBAux fuel ((n + 1) / 2) ++ [if (n + 1) % 2 = 1 then '1' else '0']

/-- Python `format(n, 'b')`: minimal binary representation, `"0"` for 0. -/
def pyFormatB (n : Nat) : List Char :=
  if n = 0 then ['0'] else pyFormatBAux n n

/-- Line 36 of the source: `num_qubits = len(format(int(upper_bound, 16), 'b'))`,
as a function of the already-parsed upper bound. -/
def num_qubits (upper : Nat) : Nat := (pyFormatB upper).length

/-- The `Profile` class: API key, proxy settings and the current keyspace.
`current_keyspace` holds the bound *strings* exactly as passed to
`assign_keyspace`. -/
structure Profile where
  api_key : String
  proxy : Option String
  proxy_username : Option String
  proxy_password : Option String
  current_keyspace : Option (String × String)
deriving DecidableEq

/-- `Profile.__init__`: stores the credentials and sets
`current_keyspace = None`. -/
def Profile.init (api_key : String) (proxy proxy_username proxy_password : Option String) :
    Profile :=
  { api_key := api_key, proxy := proxy, proxy_username := proxy_username,
    proxy_password := proxy_password, current_keyspace := none }

/-- `Profile.assign_keyspace`: unconditionally stores the pair of bound
strings (lines 19-20 of the source; there is no validation). -/
def Profile.assign_keyspace (self : Profile) (lower_bound upper_bound : String) : Profile :=
  { self with current_keyspace := some (lower_bound, upper_bound) }

/-- Gates the source emits while building the oracle circuit. -/
inductive Gate
  | x : Nat → Gate
  | h : Nat → Gate
  | mcx : List Nat → Nat → Gate
deriving DecidableEq

/-- A quantum circuit as the source manipulates it: a qubit count and the
ordered list of gates appended to it. -/
structure QuantumCircuit where
  nq : Nat
  gates : List Gate
deriving DecidableEq

/-- `QuantumCircuit.compose`: append the other circuit's gates. -/
def QuantumCircuit.compose (c d : QuantumCircuit) : QuantumCircuit :=
  ⟨c.nq, c.gates ++ d.gates⟩

/-- `is_good_state` (lines 55-56): the closure compares the raw bound
strings against the measured bitstring with Python string comparison,
`lower_bound <= bitstring <= upper_bound`. -/
def is_good_state (lower_bound upper_bound bitstring : String) : Bool :=
  pyStrLe lower_bound bitstring && pyStrLe bitstring upper_bound

/-- `AmplificationProblem(oracle_circuit, is_good_state=...)`: the data the
source hands to the library. -/
structure AmplificationProblem where
  oracle : QuantumCircuit
  good : String → Bool

/-- The external qiskit entry points the source calls, abstracted: the
`GroverOperator` constructor and `Grover(sampler=...).amplify`.  `α` is the
library's result type. -/
structure QiskitBackend (α : Type) where
  grover_operator : QuantumCircuit → QuantumCircuit
  amplify : AmplificationProblem → α

/-- `Profile.run_grover_search` (lines 34-63), over an abstract backend.
Mirrors: parse the bounds (`none` models the `ValueError` path), derive
`num_qubits` from the upper bound, build the oracle circuit (X on the
positions where `lower`'s binary string has a `'0'`, then H/MCX/H on the
last qubit), build the dead circuit `qc` by composing the Grover operator
`iterations` times, then return `amplify` of the problem made from the
oracle circuit and the `is_good_state` closure. -/
def Profile.run_grover_search {α : Type} (lib : QiskitBackend α) (self : Profile)
    (lower_bound upper_bound : String) (iterations : Nat) : Option α :=
  match pyIntHex upper_bound, pyIntHex lower_bound with
  | some up, some lo =>
    let nqb := num_qubits up
    let oracle_circuit : QuantumCircuit :=
      { nq := nqb,
        gates :=
          ((pyFormatB lo).enum.filterMap fun p =>
            if p.2 = '0' then some (Gate.x p.1) else none) ++
          [Gate.h (nqb - 1), Gate.mcx (List.range (nqb - 1)) (nqb - 1), Gate.h (nqb - 1)] }
    let grover_op := lib.grover_operator oracle_circuit
    let qc := (List.range iterations).foldl
      (fun (c : QuantumCircuit) _ => c.compose grover_op) (⟨nqb, []⟩ : QuantumCircuit)
    let good : String → Bool := fun bitstring => is_good_state lower_bound upper_bound bitstring
    some (lib.amplify ⟨oracle_circuit, good⟩)
  | _, _ => none

/-- Outcome of the `run_grover` command when no keyspace is assigned.  The
source prints "Profile N does not have an assigned keyspace." and returns
no result; the spec (§6) identifies that user-visible message with
`NoKeyspaceError`. -/
inductive RunError
  | NoKeyspaceError
deriving DecidableEq

/-- The `run_grover` command's core (lines 103-108): if the profile has a
keyspace, run the search on its stored bound strings; otherwise fail with
the no-keyspace report and produce no result. -/
def run_grover {α : Type} (lib : QiskitBackend α) (profile : Profile) (iterations : Nat) :
    Except RunError (Option α) :=
  match profile.current_keyspace with
  | some (lower_hex, upper_hex) =>
    .ok (profile.run_grover_search lib lower_hex upper_hex iterations)
  | none => .error RunError.NoKeyspaceError

/-- The `assign_keyspace` command's core (lines 89-92): look up the profile
by index (`none` models `IndexError`) and store the hex literals verbatim
via `Profile.assign_keyspace`; no parsing, no bound check. -/
def cli_assign_keyspace (profiles : List Profile) (profile_id : Nat)
    (lower_hex upper_hex : String) : Option (List Profile) :=
  match profiles[profile_id]? with
  | some p => some (profiles.set profile_id (p.assign_keyspace lower_hex upper_hex))
  | none => none

/-- The `W`-bit measurement bitstring for basis state `x`: zero-padded
big-endian binary, as qiskit renders measured states. -/
def toBitstring (W x : Nat) : String :=
  ⟨(List.range W).map fun i => if x / 2 ^ (W - 1 - i) % 2 = 1 then '1' else '0'⟩

/-- Modelled from the spec: the count `k` of states an oracle (as a marking
predicate over basis states) marks in a `W`-bit state space (§4.2, §8); the
AmplificationEngine itself is not under `src/`, the source delegates it to
the external qiskit library. -/
def marked_count (oracle : Nat → Bool) (W : Nat) : Nat :=
  ((List.range (2 ^ W)).filter oracle).length

/-- Modelled from the spec: the standard amplitude-amplification trajectory
(§4.2) on a uniform start, tracked exactly.  `grover_amps N k j` is the pair
of integer numerators `(u, v)` such that after `j` rounds every marked state
has amplitude `u / (N^j * sqrt N)` and every unmarked state
`v / (N^j * sqrt N)`; one round is the phase flip of marked states followed
by inversion about the mean, cleared of denominators. -/
def grover_amps (N k : Nat) : Nat → ℤ × ℤ
  | 0 => (1, 1)
  | j + 1 =>
    let u := (grover_amps N k j).1
    let v := (grover_amps N k j).2
    ((N : ℤ) * u - 2 * k * u + 2 * ((N : ℤ) - k) * v,
     2 * (-(k : ℤ) * u + ((N : ℤ) - k) * v) - (N : ℤ) * v)

/-- Modelled from the spec: aggregate probability mass on the `k` marked
states after `j` amplification rounds over `N` states (§4.2). -/
def success_prob (N k j : Nat) : ℚ :=
  (k : ℚ) * ((grover_amps N k j).1 : ℚ) ^ 2 / (N : ℚ) ^ (2 * j + 1)

/-- Modelled from the spec: the post-amplification distribution the engine
samples from — probability of measuring basis state `x` after `iterations`
rounds (§4.2: uniform initialization, then amplification rounds). -/
def amplified_dist (oracle : Nat → Bool) (W iterations x : Nat) : ℚ :=
  let N := 2 ^ W
  let k := marked_count oracle W
  (if oracle x then ((grover_amps N k iterations).1 : ℚ) ^ 2
   else ((grover_amps N k iterations).2 : ℚ) ^ 2) / (N : ℚ) ^ (2 * iterations + 1)

/-- Modelled from the spec: success probability of the engine's single
sample — the mass `amplified_dist` puts on the marked states. -/
def engine_success_prob (oracle : Nat → Bool) (W iterations : Nat) : ℚ :=
  success_prob (2 ^ W) (marked_count oracle W) iterations

/-- Modelled from the spec: the engine's failure taxonomy entry for an
oracle that marks no state (§4.2, §7). -/
inductive EngineError
  | EmptyOracleError
deriving DecidableEq

/-- Modelled from the spec: `AmplificationEngine.search` (§4.2) — fails with
`EmptyOracleError` when the oracle marks zero states in the given bit-width,
otherwise produces the post-amplification distribution the single sample is
drawn from. -/
def engine_search (oracle : Nat → Bool) (W iterations : Nat) :
    Except EngineError (Nat → ℚ) :=
  if marked_count oracle W = 0 then .error EngineError.EmptyOracleError
  else .ok (amplified_dist oracle W iterations)

theorem pyFormatBAux_zero (fuel : Nat) : pyFormatBAux fuel 0 = [] := by
  cases fuel <;> rfl

theorem pyFormatBAux_length :
    ∀ fuel n : Nat, 0 < n → n ≤ fuel → (pyFormatBAux fuel n).length = Nat.log 2 n + 1 := by
  intro fuel
  induction fuel with
  | zero => intro n h1 h2; omega
  | succ f ih =>
    intro n h1 h2
    match n, h1 with
    | m + 1, _ =>
      rw [pyFormatBAux, List.length_append, List.length_singleton]
      by_cases hm : m = 0
      · subst hm
        rw [show (1 : Nat) / 2 = 0 from rfl, pyFormatBAux_zero]
        simp [Nat.log_one_right]
      · have hpos : 0 < (m + 1) / 2 := by omega
        have hle : (m + 1) / 2 ≤ f := by omega
        rw [ih _ hpos hle]
        have hlog : Nat.log 2 ((m + 1) / 2) = Nat.log 2 (m + 1) - 1 := Nat.log_div_base 2 (m + 1)
        have hlpos : 0 < Nat.log 2 (m + 1) := Nat.log_pos (by omega) (by omega)
        omega

theorem num_qubits_eq (upper : Nat) :
    num_qubits upper = if upper = 0 then 1 else Nat.log 2 upper + 1 := by
  by_cases h : upper = 0
  · subst h; rfl
  · rw [num_qubits, pyFormatB, if_neg h, pyFormatBAux_length upper upper (by omega) le_rfl,
      if_neg h]

theorem list_getElem?_lt {α : Type} :
    ∀ (l : List α) (i : Nat) (x : α), l[i]? = some x → i < l.length := by
  intro l
  induction l with
  | nil => intro i x h; simp at h
  | cons a t ih =>
    intro i x h
    cases i with
    | zero => simp
    | succ j =>
      simp only [List.getElem?_cons_succ] at h
      have := ih j x h
      simp; omega

theorem list_set_getElem? {α : Type} :
    ∀ (l : List α) (i : Nat) (x : α), i < l.length → (l.set i x)[i]? = some x := by
  intro l
  induction l with
  | nil => intro i x h; simp at h
  | cons a t ih =>
    intro i x h
    cases i with
    | zero => simp
    | succ j =>
      simp only [List.set_cons_succ, List.getElem?_cons_succ]
      exact ih j x (by simp at h; omega)

set_option maxRecDepth 40000 in
/-- C1: the claim says the oracle produced for a range marks an integer `x`
in `[0, 2^W - 1]` iff `lower <= x <= upper`.  The code is wrong: at the
spec's own concrete case `lower = 0x100 (256)`, `upper = 0x1FF (511)`,
`W = 9`, the marking predicate `is_good_state` compares the raw hex literal
strings against the binary measurement bitstring lexicographically, so it
marks no 9-bit state at all — in particular `x = 256`, which lies in the
range, is unmarked. -/
theorem c1_oracle_marks_nothing :
    pyIntHex "0x100" = some 256 ∧ pyIntHex "0x1FF" = some 511 ∧
    num_qubits 511 = 9 ∧ (256 ≤ 256 ∧ 256 ≤ 511) ∧
    is_good_state "0x100" "0x1FF" (toBitstring 9 256) = false ∧
    ((List.range (2 ^ 9)).all fun x =>
      !(is_good_state "0x100" "0x1FF" (toBitstring 9 x))) = true := by
  decide

/-- C2: the result of `run_grover_search` does not depend on the
`iterations` argument: the circuit `qc` composed from the Grover operator
`iterations` times is dead, and the returned value is `amplify` of the
problem built from the oracle circuit and `is_good_state` only.  This holds
for every backend, so in particular the result distributions coincide. -/
theorem c2_result_independent_of_iterations {α : Type} (lib : QiskitBackend α)
    (self : Profile) (lower_bound upper_bound : String) (i1 i2 : Nat) :
    self.run_grover_search lib lower_bound upper_bound i1 =
      self.run_grover_search lib lower_bound upper_bound i2 := by
  unfold Profile.run_grover_search
  cases pyIntHex upper_bound <;> cases pyIntHex lower_bound <;> rfl

/-- C3 counterexample: the claim says `assign` with `lower > upper` fails
with `RangeError` and leaves `current_keyspace` unchanged.  With
`lower = 0x5 (5) > upper = 0x3 (3)` the code does not fail and mutates the
keyspace of a fresh worker from `none` to the new pair. -/
theorem c3_counterexample :
    pyIntHex "0x5" = some 5 ∧ pyIntHex "0x3" = some 3 ∧ ¬(5 ≤ 3) ∧
    ((Profile.init "k" none none none).assign_keyspace "0x5" "0x3").current_keyspace ≠
      (Profile.init "k" none none none).current_keyspace := by
  decide

/-- C3 amended: `assign_keyspace` performs no validation: even when the
bounds parse to integers with `lower > upper` it never fails and
unconditionally overwrites `current_keyspace` with the given pair. -/
theorem c3_assign_never_fails (p : Profile) (lo hi : String) (nl nh : Nat)
    (h1 : pyIntHex lo = some nl) (h2 : pyIntHex hi = some nh) (h3 : nh < nl) :
    (p.assign_keyspace lo hi).current_keyspace = some (lo, hi) := rfl

/-- C3 amended, witnessed at the concrete reversed bounds `0x5 > 0x3`. -/
theorem c3_assign_never_fails_witness :
    ((Profile.init "k" none none none).assign_keyspace "0x5" "0x3").current_keyspace =
      some ("0x5", "0x3") :=
  c3_assign_never_fails (Profile.init "k" none none none) "0x5" "0x3" 5 3
    (by decide) (by decide) (by decide)

/-- C4: on a freshly constructed worker (`__init__` sets
`current_keyspace = None`), the `run_grover` command takes the no-keyspace
branch — the spec's `NoKeyspaceError`, surfaced as the "does not have an
assigned keyspace" message — and never produces a search result. -/
theorem c4_unset_keyspace {α : Type} (lib : QiskitBackend α) (a : String)
    (pr pu pp : Option String) (iterations : Nat) :
    run_grover lib (Profile.init a pr pu pp) iterations =
      .error RunError.NoKeyspaceError ∧
    ∀ r : Option α, run_grover lib (Profile.init a pr pu pp) iterations ≠ .ok r := by
  refine ⟨rfl, ?_⟩
  intro r h
  exact Except.noConfusion h

/-- C5 counterexample: the claim says stored keyspaces are pairs of
integers with `lower <= upper`, parsed from base-16 before reaching the
core.  Driving the command surface with `lower-hex = 0x1FF`,
`upper-hex = 0x100` stores the verbatim *strings*, whose parsed values are
`511 > 256`. -/
theorem c5_counterexample :
    cli_assign_keyspace [Profile.init "k" none none none] 0 "0x1FF" "0x100" =
      some [(Profile.init "k" none none none).assign_keyspace "0x1FF" "0x100"] ∧
    ((Profile.init "k" none none none).assign_keyspace "0x1FF" "0x100").current_keyspace =
      some ("0x1FF", "0x100") ∧
    pyIntHex "0x1FF" = some 511 ∧ pyIntHex "0x100" = some 256 ∧ ¬(511 ≤ 256) := by
  decide

/-- C5 amended: a keyspace assignment arriving through the command surface
stores the base-16 literals verbatim as a pair of strings — unparsed and
with no `lower <= upper` check; parsing happens only later inside
`run_grover_search`. -/
theorem c5_stored_verbatim (profiles : List Profile) (profile_id : Nat)
    (lower_hex upper_hex : String) (out : List Profile)
    (h : cli_assign_keyspace profiles profile_id lower_hex upper_hex = some out) :
    (out[profile_id]?).map Profile.current_keyspace =
      some (some (lower_hex, upper_hex)) := by
  unfold cli_assign_keyspace at h
  cases hp : profiles[profile_id]? with
  | none => rw [hp] at h; exact Option.noConfusion h
  | some p =>
    rw [hp] at h
    injection h with h'
    subst h'
    rw [list_set_getElem? profiles profile_id _
      (list_getElem?_lt profiles profile_id p hp)]
    rfl

/-- C5 amended, witnessed by assigning `0x1FF`, `0x100` to the only worker
in a one-element registry. -/
theorem c5_stored_verbatim_witness :
    (([(Profile.init "k" none none none).assign_keyspace "0x1FF" "0x100"] :
        List Profile)[0]?).map Profile.current_keyspace =
      some (some ("0x1FF", "0x100")) :=
  c5_stored_verbatim [Profile.init "k" none none none] 0 "0x1FF" "0x100"
    [(Profile.init "k" none none none).assign_keyspace "0x1FF" "0x100"] rfl

/-- C6: the bit-width `num_qubits` the search derives from the upper bound
(`len(format(upper, 'b'))`) equals `floor(log2 upper) + 1` for positive
`upper` and `1` for `upper = 0`. -/
theorem c6_bit_width (upper : Nat) :
    num_qubits upper = if upper = 0 then 1 else Nat.log 2 upper + 1 :=
  num_qubits_eq upper

/-- C7: with zero amplification rounds the engine's distribution is the
uniform prior over the `2^W` states, so the success probability of the
single sample is exactly `k / 2^W`. -/
theorem c7_zero_iterations_uniform (oracle : Nat → Bool) (W : Nat) :
    (∀ x, amplified_dist oracle W 0 x = 1 / (2 ^ W : ℚ)) ∧
    engine_success_prob oracle W 0 = (marked_count oracle W : ℚ) / (2 ^ W : ℚ) := by
  constructor
  · intro x
    unfold amplified_dist
    cases h : oracle x <;> simp [h, grover_amps]
  · unfold engine_success_prob success_prob
    simp [grover_amps]

/-- C8: when the oracle marks zero states in the given bit-width, the
engine's `search` fails with `EmptyOracleError` and produces no
distribution to sample a `SearchResult` from. -/
theorem c8_empty_oracle (oracle : Nat → Bool) (W iterations : Nat)
    (h : marked_count oracle W = 0) :
    engine_search oracle W iterations = .error EngineError.EmptyOracleError ∧
    ∀ d : Nat → ℚ, engine_search oracle W iterations ≠ .ok d := by
  constructor
  · unfold engine_search
    rw [if_pos h]
  · intro d hd
    unfold engine_search at hd
    rw [if_pos h] at hd
    exact Except.noConfusion hd

/-- C8, witnessed by the everywhere-false oracle on 2 bits. -/
theorem c8_empty_oracle_witness :
    engine_search (fun _ => false) 2 5 = .error EngineError.EmptyOracleError ∧
    ∀ d : Nat → ℚ, engine_search (fun _ => false) 2 5 ≠ .ok d :=
  c8_empty_oracle (fun _ => false) 2 5 (by decide)

/-- C9 counterexample: for the single-marked-state oracle on `W = 4` bits
(`k = 1`, `N = 16`) the optimal count `(π/4)·sqrt(2^W/k)` has floor `3`,
yet the success probability *rises* between iteration counts `6` and `7`,
both of which exceed the optimal count — the trajectory is periodic, not
decreasing everywhere past the optimum. -/
theorem c9_counterexample :
    ⌊Real.pi / 4 * Real.sqrt ((2 ^ 4 : ℝ) / 1)⌋ = 3 ∧
    (3 : ℕ) < 6 ∧ (3 : ℕ) < 7 ∧
    engine_success_prob (fun x => x == 3) 4 6 <
      engine_success_prob (fun x => x == 3) 4 7 := by
  refine ⟨?_, by omega, by omega, ?_⟩
  · have hs : Real.sqrt ((2 ^ 4 : ℝ) / 1) = 4 := by
      rw [div_one, show ((2 : ℝ) ^ 4) = (4 : ℝ) ^ 2 by norm_num]
      exact Real.sqrt_sq (by norm_num)
    rw [hs, show Real.pi / 4 * 4 = Real.pi by ring]
    have h1 : (3 : ℝ) < Real.pi := Real.pi_gt_three
    have h2 : Real.pi < 3.15 := Real.pi_lt_d2
    rw [Int.floor_eq_iff]
    constructor <;> push_cast <;> linarith
  · have hk : marked_count (fun x => x == 3) 4 = 1 := by decide
    show success_prob (2 ^ 4) (marked_count (fun x => x == 3) 4) 6 <
      success_prob (2 ^ 4) (marked_count (fun x => x == 3) 4) 7
    rw [hk]
    have h6 : grover_amps 16 1 6 = (-9580544, -17149952) := by decide
    have h7 : grover_amps 16 1 7 = (-648626176, -220938240) := by decide
    show success_prob 16 1 6 < success_prob 16 1 7
    unfold success_prob
    rw [h6, h7]
    push_cast
    norm_num

/-- C9 amended: for the same concrete oracle (`k = 1`, `W = 4`,
optimal count `3`) the success probability rises monotonically from `0`
rounds up to the optimal count and is lower just past the optimum and at
twice the optimal count than at the optimum — but, per the counterexample,
it is not decreased at *every* count exceeding the optimum. -/
theorem c9_rise_and_fall :
    engine_success_prob (fun x => x == 3) 4 0 < engine_success_prob (fun x => x == 3) 4 1 ∧
    engine_success_prob (fun x => x == 3) 4 1 < engine_success_prob (fun x => x == 3) 4 2 ∧
    engine_success_prob (fun x => x == 3) 4 2 < engine_success_prob (fun x => x == 3) 4 3 ∧
    engine_success_prob (fun x => x == 3) 4 4 < engine_success_prob (fun x => x == 3) 4 3 ∧
    engine_success_prob (fun x => x == 3) 4 6 < engine_success_prob (fun x => x == 3) 4 3 := by
  have hk : marked_count (fun x => x == 3) 4 = 1 := by decide
  have h0 : grover_amps 16 1 0 = (1, 1) := rfl
  have h1 : grover_amps 16 1 1 = (44, 12) := by decide
  have h2 : grover_amps 16 1 2 = (976, 80) := by decide
  have h3 : grover_amps 16 1 3 = (16064, -832) := by decide
  have h4 : grover_amps 16 1 4 = (199936, -43776) := by decide
  have h6 : grover_amps 16 1 6 = (-9580544, -17149952) := by decide
  unfold engine_success_prob
  rw [hk]
  show success_prob 16 1 0 < success_prob 16 1 1 ∧
    success_prob 16 1 1 < success_prob 16 1 2 ∧
    success_prob 16 1 2 < success_prob 16 1 3 ∧
    success_prob 16 1 4 < success_prob 16 1 3 ∧
    success_prob 16 1 6 < success_prob 16 1 3
  unfold success_prob
  rw [h0, h1, h2, h3, h4, h6]
  push_cast
  norm_num

/-- C10: assigning the same bounds twice in succession leaves the worker in
exactly the state of the first assignment — the second call is a no-op and
(the function being total) raises nothing. -/
theorem c10_assign_idempotent (p : Profile) (lower_bound upper_bound : String) :
    (p.assign_keyspace lower_bound upper_bound).assign_keyspace lower_bound upper_bound =
      p.assign_keyspace lower_bound upper_bound := rfl
